import Mathlib

/-!
Formal model of the device subscription manager of this repository
(`app.py` and `database.py`), as a shallow embedding in Lean.

Python values that can appear in decoded JSON payloads are modelled by
`PyVal`; Python exceptions that the modelled code can raise are modelled by
`PyErr`, and fallible Python expressions by `Except PyErr`.  Python dicts are
modelled as association lists in insertion order (Python dicts preserve
insertion order; assigning to an existing key keeps its slot, and a fresh key
is appended at the end).  The socketio server state (rooms, the
`active_connections` registry, `websocket_connections`) is the structure
`ServerState`, and the streaming read loop of `device_subscription_loop` is
the function `streamLoop`, which records its externally visible effects as a
trace of `Action`s.
-/

namespace WorldsApp

/-- A Python value appearing in decoded JSON payloads: `None`, booleans,
integers, strings, lists, and dicts (association lists in insertion order). -/
inductive PyVal where
  | none : PyVal
  | bool : Bool → PyVal
  | int : Int → PyVal
  | str : String → PyVal
  | list : List PyVal → PyVal
  | dict : List (String × PyVal) → PyVal

/-- A Python exception raised by the modelled code.  `dbError` stands for any
exception raised by the sqlite3 calls (connect / execute / commit). -/
inductive PyErr where
  | keyError : PyErr
  | typeError : PyErr
  | attributeError : PyErr
  | indexError : PyErr
  | dbError : PyErr
  deriving DecidableEq

/-- Python truthiness: `bool(v)`. -/
def pyTruthy : PyVal → Bool
  | PyVal.none => false
  | PyVal.bool b => b
  | PyVal.int n => !(n == 0)
  | PyVal.str s => !(s == "")
  | PyVal.list xs => !xs.isEmpty
  | PyVal.dict es => !es.isEmpty

/-- Python `v == "s"` for a string literal `s`: true exactly when `v` is the
equal string (no non-string value compares equal to a string). -/
def pyEqStr (v : PyVal) (s : String) : Bool :=
  match v with
  | PyVal.str t => t == s
  | _ => false

/-- Python `a == b` for values used as dict keys.  Container equality is
structural here; the code only ever stores hashable (scalar) keys, so the
order-insensitivity of Python dict equality is never exercised. -/
def pyBeq (a b : PyVal) : Bool :=
  match a, b with
  | PyVal.none, PyVal.none => true
  | PyVal.bool x, PyVal.bool y => x == y
  | PyVal.int x, PyVal.int y => x == y
  | PyVal.str x, PyVal.str y => x == y
  | PyVal.list xs, PyVal.list ys => pyBeqList xs ys
  | PyVal.dict es, PyVal.dict fs => pyBeqEntries es fs
  | _, _ => false
where
  pyBeqList : List PyVal → List PyVal → Bool
    | [], [] => true
    | x :: xs, y :: ys => pyBeq x y && pyBeqList xs ys
    | _, _ => false
  pyBeqEntries : List (String × PyVal) → List (String × PyVal) → Bool
    | [], [] => true
    | (k, v) :: es, (l, w) :: fs => k == l && pyBeq v w && pyBeqEntries es fs
    | _, _ => false

/-- Lookup in a dict modelled as an association list. -/
def assocGet : List (String × PyVal) → String → Option PyVal
  | [], _ => Option.none
  | (k, v) :: es, key => if k = key then some v else assocGet es key

/-- Python dict assignment `d[key] = v`: replace in place if the key is
present, otherwise append the new entry at the end (insertion order). -/
def assocSet : List (String × PyVal) → String → PyVal → List (String × PyVal)
  | [], key, v => [(key, v)]
  | (k, w) :: es, key, v =>
    if k = key then (key, v) :: es else (k, w) :: assocSet es key v

/-- Python subscript `d[k]` for a string key: `KeyError` when the key is
absent, `TypeError` when the value is not subscriptable by strings. -/
def getItem : PyVal → String → Except PyErr PyVal
  | PyVal.dict es, k =>
    match assocGet es k with
    | some v => Except.ok v
    | Option.none => Except.error PyErr.keyError
  | _, _ => Except.error PyErr.typeError

/-- Python `d.get(k)` (default `None`): `AttributeError` when `d` is not a
dict (for example `None` or a string). -/
def pyGet (v : PyVal) (k : String) : Except PyErr PyVal :=
  match v with
  | PyVal.dict es => Except.ok ((assocGet es k).getD PyVal.none)
  | _ => Except.error PyErr.attributeError

/-- Python `d.get(k, default)`. -/
def pyGetD (v : PyVal) (k : String) (d : PyVal) : Except PyErr PyVal :=
  match v with
  | PyVal.dict es => Except.ok ((assocGet es k).getD d)
  | _ => Except.error PyErr.attributeError

/-- Python dict assignment `d[k] = v` as an expression on the modelled value:
`TypeError` when `d` is not a dict. -/
def setItem : PyVal → String → PyVal → Except PyErr PyVal
  | PyVal.dict es, k, v => Except.ok (PyVal.dict (assocSet es k v))
  | _, _, _ => Except.error PyErr.typeError

/-- Python `a or b`. -/
def pyOr (a b : PyVal) : PyVal :=
  if pyTruthy a then a else b

/-- Python `a and b`. -/
def pyAnd (a b : PyVal) : PyVal :=
  if pyTruthy a then b else a

/-- Python subscript `v[0]`: head of a list, first character of a string,
`KeyError` on a dict (0 is not one of the modelled string keys),
`TypeError` on the remaining non-subscriptable values. -/
def pyIndex0 : PyVal → Except PyErr PyVal
  | PyVal.list (x :: _) => Except.ok x
  | PyVal.list [] => Except.error PyErr.indexError
  | PyVal.str s =>
    match s.toList with
    | c :: _ => Except.ok (PyVal.str (String.mk [c]))
    | [] => Except.error PyErr.indexError
  | PyVal.dict _ => Except.error PyErr.keyError
  | _ => Except.error PyErr.typeError

/-- Python `json.dumps` with the default separators; it is total on the
modelled (JSON-serializable) values. -/
def jsonDumps : PyVal → String
  | PyVal.none => "null"
  | PyVal.bool true => "true"
  | PyVal.bool false => "false"
  | PyVal.int n => toString n
  | PyVal.str s => "\"" ++ s ++ "\""
  | PyVal.list xs => "[" ++ jsonDumpsList xs ++ "]"
  | PyVal.dict es => "\x7b" ++ jsonDumpsEntries es ++ "\x7d"
where
  jsonDumpsList : List PyVal → String
    | [] => ""
    | [x] => jsonDumps x
    | x :: y :: xs => jsonDumps x ++ ", " ++ jsonDumpsList (y :: xs)
  jsonDumpsEntries : List (String × PyVal) → String
    | [] => ""
    | [(k, v)] => "\"" ++ k ++ "\": " ++ jsonDumps v
    | (k, v) :: e :: es =>
      "\"" ++ k ++ "\": " ++ jsonDumps v ++ ", " ++ jsonDumpsEntries (e :: es)

/-- Python `try: body except Exception: return handler`: every exception of
the body is caught and the handler value is returned instead. -/
def pyTry (body : Except PyErr PyVal) (handler : PyVal) : Except PyErr PyVal :=
  match body with
  | Except.ok v => Except.ok v
  | Except.error _ => Except.ok handler

/-- Body of `DetectionDatabase.insert_detection` (database.py 112-161), up to
and including building the row that is passed to the INSERT statement.
`dbOk` is false when the sqlite3 calls raise; the raise is placed at
`sqlite3.connect`, which runs before the field extraction, and a failure at
execute or commit time is indistinguishable to the caller.  The returned list
is the `insert_data` tuple. -/
def insert_detection_body (dbOk : Bool) (detection_data : PyVal) :
    Except PyErr (List PyVal) := do
  if !dbOk then throw PyErr.dbError
  let track := pyOr (← pyGet detection_data "track") (PyVal.dict [])
  let position := pyOr (← pyGet detection_data "position") (PyVal.dict [])
  let polygon := pyOr (← pyGet detection_data "polygon") (PyVal.dict [])
  let video := pyOr (← pyGet track "video") (PyVal.dict [])
  let video_data_source := pyOr (← pyGet video "dataSource") (PyVal.dict [])
  let device_info := pyOr (← pyGet video_data_source "device") (PyVal.dict [])
  let detections := pyOr (← pyGet track "detections") (PyVal.list [])
  let first_detection ←
    if pyTruthy detections then pyIndex0 detections else pure (PyVal.dict [])
  let c1 ← pyGetD detection_data "device_id" (PyVal.str "unknown")
  let c2 ← pyGet track "id"
  let c3 ← pyGet track "tag"
  let c4 ← pyGet detection_data "timestamp"
  let c5 ← pyGet detection_data "direction"
  let c6 ← pyGet position "type"
  let c7 ← pyGetD position "coordinates" (PyVal.list [])
  let c8 ← pyGet polygon "type"
  let c9 ← pyGetD polygon "coordinates" (PyVal.list [])
  let c10 ← pyGetD first_detection "geofenceIds" (PyVal.list [])
  let c11 ← pyGetD first_detection "zoneIds" (PyVal.list [])
  let c12 ← pyGet first_detection "globalTrackId"
  let c13 ← pyGet device_info "name"
  let c14 ← pyGetD first_detection "metadata" (PyVal.dict [])
  pure [c1, c2, c3, c4, c5, c6, PyVal.str (jsonDumps c7), c8,
    PyVal.str (jsonDumps c9), PyVal.str (jsonDumps c10),
    PyVal.str (jsonDumps c11), c12, c13, PyVal.str (jsonDumps c14)]

/-- `DetectionDatabase.insert_detection` (database.py 112-165): the whole body
runs inside `try`, and `except Exception` returns `False`; on success the
function returns `True`. -/
def insert_detection (dbOk : Bool) (detection_data : PyVal) :
    Except PyErr PyVal :=
  pyTry
    (match insert_detection_body dbOk detection_data with
     | Except.ok _ => Except.ok (PyVal.bool true)
     | Except.error e => Except.error e)
    (PyVal.bool false)

/-- Body of `DetectionDatabase.insert_track` (database.py 167-207), up to and
including building the row passed to the INSERT OR REPLACE statement.  Note
`track_data.get("dataSource", \x7b\x7d).get("name")`: an explicit `None`
value under `"dataSource"` is kept (no `or`), so the second `.get` raises
`AttributeError`, which the surrounding `try` catches. -/
def insert_track_body (dbOk : Bool) (track_data : PyVal) (device_id : PyVal) :
    Except PyErr (List PyVal) := do
  if !dbOk then throw PyErr.dbError
  let video := pyOr (← pyGet track_data "video") (PyVal.dict [])
  let video_data_source := pyOr (← pyGet video "dataSource") (PyVal.dict [])
  let device_info := pyOr (← pyGet video_data_source "device") (PyVal.dict [])
  let c1 ← pyGet track_data "id"
  let c3 ← pyGet track_data "tag"
  let ds ← pyGetD track_data "dataSource" (PyVal.dict [])
  let c4 ← pyGet ds "name"
  let c5 ← pyGet video "url"
  let c6 ← pyGet video "thumbnailUrl"
  let c7 ← pyGet video "displayName"
  let c8 ← pyGet video "resolutionHeight"
  let c9 ← pyGet video "resolutionWidth"
  let c10 ← pyGet video "frameRate"
  let c11 ← pyGet video_data_source "id"
  let c12 ← pyGet video_data_source "name"
  let c13 ← pyGet video_data_source "type"
  let c14 ← pyGet device_info "name"
  pure [c1, device_id, c3, c4, c5, c6, c7, c8, c9, c10, c11, c12, c13, c14]

/-- `DetectionDatabase.insert_track` (database.py 167-211): body inside `try`,
`except Exception` returns `False`, success returns `True`. -/
def insert_track (dbOk : Bool) (track_data : PyVal) (device_id : PyVal) :
    Except PyErr PyVal :=
  pyTry
    (match insert_track_body dbOk track_data device_id with
     | Except.ok _ => Except.ok (PyVal.bool true)
     | Except.error e => Except.error e)
    (PyVal.bool false)

/-- `save_detection_to_db` (database.py 460-474).  The Python function mutates
its argument in place (`detection_data["device_id"] = device_id`), and the
caller in `app.py` holds a reference to the same object, so the model returns
the mutated value alongside the boolean result.  `dbOk1` (resp. `dbOk2`)
tells whether the sqlite3 calls of `insert_detection` (resp. `insert_track`)
succeed. -/
def save_detection_to_db (dbOk1 dbOk2 : Bool) (detection_data : PyVal)
    (device_id : PyVal) : Except PyErr (PyVal × PyVal) := do
  let d ← setItem detection_data "device_id" device_id
  let detection_result ← insert_detection dbOk1 d
  let track ← pyGetD d "track" (PyVal.dict [])
  let track_result ←
    if pyTruthy track then insert_track dbOk2 track device_id
    else pure (PyVal.bool true)
  pure (pyAnd detection_result track_result, d)

/-- One result of `await ws.recv()` followed by `json.loads`: a decoded frame,
a `json.loads` failure, or a `ConnectionClosed` raised by the transport. -/
inductive RecvItem where
  | frame : PyVal → RecvItem
  | badJson : RecvItem
  | closed : RecvItem

/-- An externally visible effect of one run of `device_subscription_loop`:
a frame sent on the websocket (`connection_init`, `subscribe`, `pong`), a call
to `save_detection_to_db` (with the event value as persisted and the boolean
result), or a `socketio.emit` to the room of the device (`connection_status`
or `detection_data`). -/
inductive Action where
  | sendInit : Action
  | sendSubscribe : Action
  | connStatus : PyVal → Action
  | persist : PyVal → PyVal → Action
  | broadcast : PyVal → PyVal → Action
  | pong : Action

/-- Why the streaming loop (or the surrounding session) terminated. -/
inductive ExitReason where
  | errorFrame : ExitReason
  | completeFrame : ExitReason
  | transportClosed : ExitReason
  | internalError : ExitReason
  | handshakeFailed : ExitReason
  deriving DecidableEq

/-- Handling of a `"next"` frame inside the streaming loop (app.py 388-400):
`msg["payload"]["data"]` is subscripted (a missing key raises `KeyError`,
a non-dict raises `TypeError`), then `.get("detectionActivity")`; when the
result is truthy, `save_detection_to_db` is called and the (mutated) event is
emitted to the device room. -/
def handleNext (dbOk1 dbOk2 : Bool) (device_id : PyVal) (msg : PyVal) :
    Except PyErr (List Action) := do
  let payload ← getItem msg "payload"
  let dat ← getItem payload "data"
  let detection_data ← pyGet dat "detectionActivity"
  if pyTruthy detection_data then
    let r ← save_detection_to_db dbOk1 dbOk2 detection_data device_id
    pure [Action.persist r.2 r.1, Action.broadcast device_id r.2]
  else
    pure []

/-- The streaming read loop of `device_subscription_loop` (app.py 383-418),
over a run during which no concurrent `stop_device_subscription` removes the
key (so the `while device_id in active_connections` condition stays true) and
the listed receive results arrive in order.  Frames whose `"type"` is none of
`next`/`error`/`complete`/`ping` fall through every branch and are skipped.
Any exception inside the loop body is caught by the inner `except` clauses,
which print and `break`.  The result is the emitted action trace and the exit
reason (`Option.none` when the input is exhausted with the loop still
running). -/
def streamLoop (dbOk1 dbOk2 : Bool) (device_id : PyVal) :
    List RecvItem → List Action × Option ExitReason
  | [] => ([], Option.none)
  | RecvItem.closed :: _ => ([], some ExitReason.transportClosed)
  | RecvItem.badJson :: _ => ([], some ExitReason.internalError)
  | RecvItem.frame msg :: rest =>
    match pyGet msg "type" with
    | Except.error _ => ([], some ExitReason.internalError)
    | Except.ok t =>
      if pyEqStr t "next" then
        match handleNext dbOk1 dbOk2 device_id msg with
        | Except.ok acts =>
          let r := streamLoop dbOk1 dbOk2 device_id rest
          (acts ++ r.1, r.2)
        | Except.error _ => ([], some ExitReason.internalError)
      else if pyEqStr t "error" then ([], some ExitReason.errorFrame)
      else if pyEqStr t "complete" then ([], some ExitReason.completeFrame)
      else if pyEqStr t "ping" then
        let r := streamLoop dbOk1 dbOk2 device_id rest
        (Action.pong :: r.1, r.2)
      else
        streamLoop dbOk1 dbOk2 device_id rest

/-- Result of the ack-wait loop (app.py 353-358). -/
inductive AckResult where
  | acked : List RecvItem → AckResult
  | failed : AckResult
  | blocked : AckResult

/-- The ack-wait loop (app.py 353-358): read and decode frames, ignoring every
frame whose type is not `connection_ack`; a decode failure, a non-dict frame
or a transport close raises out of the loop to the outer handler (`failed`);
`blocked` means the listed input was exhausted with the loop still reading. -/
def awaitAck : List RecvItem → AckResult
  | [] => AckResult.blocked
  | RecvItem.closed :: _ => AckResult.failed
  | RecvItem.badJson :: _ => AckResult.failed
  | RecvItem.frame msg :: rest =>
    match pyGet msg "type" with
    | Except.error _ => AckResult.failed
    | Except.ok t =>
      if pyEqStr t "connection_ack" then AckResult.acked rest
      else awaitAck rest

/-- Python `k in d` for the modelled dicts keyed by Python values
(`active_connections`, `websocket_connections`): membership by Python
equality. -/
def pyMem (k : PyVal) (l : List PyVal) : Bool :=
  l.any (fun x => pyBeq k x)

/-- Python `del d[k]` on a dict modelled as its key list: the single entry
whose key equals `k` is removed (the list model filters). -/
def delKey (k : PyVal) (l : List PyVal) : List PyVal :=
  l.filter (fun x => !(pyBeq k x))

/-- The mutable server state of `app.py`: the socketio rooms (room
`device_<k>` is keyed here by the device value `k`, mapping to the session
ids of the joined clients), the `active_connections` registry (thread handles
abstracted to the key list), the `websocket_connections` map (connection
handles abstracted likewise), and a log of the keys for which a subscription
worker thread was started. -/
structure ServerState where
  rooms : List (PyVal × List String)
  active_connections : List PyVal
  websocket_connections : List PyVal
  spawned : List PyVal

/-- The state at process start: empty maps. -/
def initState : ServerState :=
  { rooms := [], active_connections := [], websocket_connections := [],
    spawned := [] }

/-- Members of a room (empty when the room does not exist). -/
def roomGet : List (PyVal × List String) → PyVal → List String
  | [], _ => []
  | (k, ms) :: rs, key => if pyBeq k key then ms else roomGet rs key

/-- Replace the member list of a room, creating the room if absent. -/
def roomSet : List (PyVal × List String) → PyVal → List String →
    List (PyVal × List String)
  | [], key, ms => [(key, ms)]
  | (k, old) :: rs, key, ms =>
    if pyBeq k key then (key, ms) :: rs else (k, old) :: roomSet rs key ms

/-- flask_socketio `join_room(room)` for the calling client `sid`: the sid
enters the room's member set (idempotent). -/
def joinRoom (rooms : List (PyVal × List String)) (key : PyVal)
    (sid : String) : List (PyVal × List String) :=
  let ms := roomGet rooms key
  roomSet rooms key (if sid ∈ ms then ms else ms ++ [sid])

/-- flask_socketio `leave_room(room)` for the calling client `sid`. -/
def leaveRoom (rooms : List (PyVal × List String)) (key : PyVal)
    (sid : String) : List (PyVal × List String) :=
  roomSet rooms key ((roomGet rooms key).erase sid)

/-- `start_device_subscription` (app.py 225-236): return early when the key
is already in `active_connections`; otherwise start a daemon worker thread
running `device_subscription_loop` and store it under the key.  The boolean
records whether a new worker was spawned (the early return spawns none). -/
def start_device_subscription (device_id : PyVal) (st : ServerState) :
    Bool × ServerState :=
  if pyMem device_id st.active_connections then (false, st)
  else
    (true,
      { st with
        spawned := st.spawned ++ [device_id],
        active_connections := st.active_connections ++ [device_id] })

/-- `stop_device_subscription` (app.py 239-252): delete the registry entry if
present, then close and delete the stored websocket connection if present
(the close call's own try/except has no further state effect here). -/
def stop_device_subscription (device_id : PyVal) (st : ServerState) :
    ServerState :=
  let st1 :=
    if pyMem device_id st.active_connections then
      { st with active_connections := delKey device_id st.active_connections }
    else st
  if pyMem device_id st1.websocket_connections then
    { st1 with
      websocket_connections := delKey device_id st1.websocket_connections }
  else st1

/-- socketio handler `join_device` (app.py 203-211); `data` is the decoded
dict payload of the message.  `data.get("device_id")` on a dict payload
cannot raise; a falsy result makes the whole handler a no-op. -/
def handle_join_device (sid : String) (data : List (String × PyVal))
    (st : ServerState) : ServerState :=
  let device_id := (assocGet data "device_id").getD PyVal.none
  if pyTruthy device_id then
    let st1 := { st with rooms := joinRoom st.rooms device_id sid }
    (start_device_subscription device_id st1).2
  else st

/-- socketio handler `leave_device` (app.py 214-222): leave the room, then
call `stop_device_subscription` — unconditionally, with no check of the
remaining room membership. -/
def handle_leave_device (sid : String) (data : List (String × PyVal))
    (st : ServerState) : ServerState :=
  let device_id := (assocGet data "device_id").getD PyVal.none
  if pyTruthy device_id then
    let st1 := { st with rooms := leaveRoom st.rooms device_id sid }
    stop_device_subscription device_id st1
  else st

/-- The `finally` block of `device_subscription_loop` (app.py 422-428): the
session deletes its own entries from `active_connections` and
`websocket_connections`, each guarded by a membership test. -/
def sessionCleanup (device_id : PyVal) (st : ServerState) : ServerState :=
  let st1 :=
    if pyMem device_id st.active_connections then
      { st with active_connections := delKey device_id st.active_connections }
    else st
  if pyMem device_id st1.websocket_connections then
    { st1 with
      websocket_connections := delKey device_id st1.websocket_connections }
  else st1

/-- `device_subscription_loop` (app.py 255-428) from the point where the
transport is connected: store the connection handle, send `connection_init`,
wait for `connection_ack`, send `subscribe`, emit `connection_status` to the
device room, run the streaming loop, and run the `finally` cleanup when the
run terminates (when the listed input is exhausted with the session still
live, the exit reason is `Option.none` and the cleanup has not run yet).
A failure before the ack (decode error, transport close) propagates to the
outer `except`, which logs, and the `finally` cleanup still runs. -/
def sessionRun (dbOk1 dbOk2 : Bool) (device_id : PyVal)
    (items : List RecvItem) (st : ServerState) :
    List Action × Option ExitReason × ServerState :=
  let st1 :=
    { st with
      websocket_connections :=
        if pyMem device_id st.websocket_connections then
          st.websocket_connections
        else st.websocket_connections ++ [device_id] }
  match awaitAck items with
  | AckResult.failed =>
    ([Action.sendInit], some ExitReason.handshakeFailed,
      sessionCleanup device_id st1)
  | AckResult.blocked => ([Action.sendInit], Option.none, st1)
  | AckResult.acked rest =>
    let r := streamLoop dbOk1 dbOk2 device_id rest
    match r.2 with
    | some ex =>
      (Action.sendInit :: Action.sendSubscribe ::
          Action.connStatus device_id :: r.1,
        some ex, sessionCleanup device_id st1)
    | Option.none =>
      (Action.sendInit :: Action.sendSubscribe ::
          Action.connStatus device_id :: r.1,
        Option.none, st1)

/-- Recognizer for `connection_status` emissions in a trace. -/
def isConnStatus : Action → Bool
  | Action.connStatus _ => true
  | _ => false

/-- The events handed to `save_detection_to_db`, in call order. -/
def persistedEvents (acts : List Action) : List PyVal :=
  acts.filterMap fun a =>
    match a with
    | Action.persist e _ => some e
    | _ => Option.none

/-- The events emitted as `detection_data` to the device room, in emit
order. -/
def broadcastEvents (acts : List Action) : List PyVal :=
  acts.filterMap fun a =>
    match a with
    | Action.broadcast _ e => some e
    | _ => Option.none

/-- The wire frame `next` carrying an event `e` as the
`payload.data.detectionActivity` of a GraphQL response envelope. -/
def mkNextFrame (e : PyVal) : RecvItem :=
  RecvItem.frame
    (PyVal.dict
      [("type", PyVal.str "next"),
       ("payload",
        PyVal.dict [("data", PyVal.dict [("detectionActivity", e)])])])

/-- The event dict `es` after `save_detection_to_db` has assigned
`detection_data["device_id"] = device_id`. -/
def withDevice (es : List (String × PyVal)) (device_id : PyVal) : PyVal :=
  PyVal.dict (assocSet es "device_id" device_id)

/-- Fine-grained model of two threads concurrently executing
`start_device_subscription k` (app.py 225-236) against the shared
`active_connections` dict.  Program counters: 0 = about to evaluate
`device_id in active_connections`; 1 = the test found the key absent, the
thread is about to create and start the worker and assign the dict entry;
2 = returned.  The code holds no lock, and creating and starting a
`threading.Thread` sits between the membership test and the assignment, so a
thread switch between them is possible; each dict operation by itself is
atomic under the interpreter lock, which this step granularity reflects. -/
structure RaceState where
  registry : List PyVal
  spawned : List PyVal
  pc1 : Nat
  pc2 : Nat

/-- One atomic step of thread 1 (`t = false`) or thread 2 (`t = true`) of the
race model. -/
def raceStep (k : PyVal) (s : RaceState) (t : Bool) : RaceState :=
  if t = false then
    match s.pc1 with
    | 0 =>
      if pyMem k s.registry then { s with pc1 := 2 } else { s with pc1 := 1 }
    | 1 =>
      { s with
        pc1 := 2,
        spawned := s.spawned ++ [k],
        registry :=
          if pyMem k s.registry then s.registry else s.registry ++ [k] }
    | _ => s
  else
    match s.pc2 with
    | 0 =>
      if pyMem k s.registry then { s with pc2 := 2 } else { s with pc2 := 1 }
    | 1 =>
      { s with
        pc2 := 2,
        spawned := s.spawned ++ [k],
        registry :=
          if pyMem k s.registry then s.registry else s.registry ++ [k] }
    | _ => s

/-- Run a schedule (a list of thread choices) of the race model. -/
def raceRun (k : PyVal) (sched : List Bool) (s : RaceState) : RaceState :=
  sched.foldl (raceStep k) s

/-- insert_detection always returns an `ok` boolean: the try/except swallows
every exception of the body. -/
theorem insert_detection_total (dbOk : Bool) (d : PyVal) :
    ∃ b : Bool, insert_detection dbOk d = Except.ok (PyVal.bool b) := by
  unfold insert_detection pyTry
  cases insert_detection_body dbOk d with
  | ok v => exact ⟨true, rfl⟩
  | error e => exact ⟨false, rfl⟩

/-- insert_track always returns an `ok` boolean. -/
theorem insert_track_total (dbOk : Bool) (t k : PyVal) :
    ∃ b : Bool, insert_track dbOk t k = Except.ok (PyVal.bool b) := by
  unfold insert_track pyTry
  cases insert_track_body dbOk t k with
  | ok v => exact ⟨true, rfl⟩
  | error e => exact ⟨false, rfl⟩

theorem pyMem_delKey (k : PyVal) (l : List PyVal) :
    pyMem k (delKey k l) = false := by
  simp only [pyMem, delKey, List.any_eq_false]
  intro x hx
  have := List.of_mem_filter hx
  simpa using this

theorem save_ok_dict (dbOk1 dbOk2 : Bool) (es : List (String × PyVal))
    (k : PyVal) :
    ∃ res : PyVal,
      save_detection_to_db dbOk1 dbOk2 (PyVal.dict es) k
        = Except.ok (res, withDevice es k) := by
  obtain ⟨b1, hb1⟩ := insert_detection_total dbOk1 (withDevice es k)
  simp only [withDevice] at hb1
  unfold save_detection_to_db
  simp only [setItem, withDevice, bind, Except.bind, hb1]
  simp only [pyGetD, withDevice]
  set track := (assocGet (assocSet es "device_id" k) "track").getD (PyVal.dict []) with htr
  by_cases h : pyTruthy track
  · obtain ⟨b2, hb2⟩ := insert_track_total dbOk2 track k
    simp only [h, hb2, hb1, if_true]
    exact ⟨pyAnd (PyVal.bool b1) (PyVal.bool b2), rfl⟩
  · simp [h, pure, Except.pure, hb1]

theorem handleNext_shape (dbOk1 dbOk2 : Bool) (k msg : PyVal)
    (acts : List Action)
    (h : handleNext dbOk1 dbOk2 k msg = Except.ok acts) :
    acts = [] ∨ ∃ r m, acts = [Action.persist m r, Action.broadcast k m] := by
  unfold handleNext at h
  cases h1 : getItem msg "payload" with
  | error e => simp [h1, bind, Except.bind] at h
  | ok payload =>
    simp only [h1, bind, Except.bind] at h
    cases h2 : getItem payload "data" with
    | error e => simp [h2] at h
    | ok dat =>
      simp only [h2] at h
      cases h3 : pyGet dat "detectionActivity" with
      | error e => simp [h3] at h
      | ok det =>
        simp only [h3] at h
        by_cases ht : pyTruthy det
        · simp only [ht, if_true] at h
          cases h4 : save_detection_to_db dbOk1 dbOk2 det k with
          | error e => simp [h4] at h
          | ok rm =>
            simp only [h4, pure, Except.pure, Except.ok.injEq] at h
            right
            exact ⟨rm.1, rm.2, h.symm⟩
        · simp only [ht, if_false, Bool.false_eq_true, pure, Except.pure,
            Except.ok.injEq] at h
          left
          exact h.symm

theorem handleNext_next (dbOk1 dbOk2 : Bool) (k : PyVal)
    (es : List (String × PyVal)) (ht : pyTruthy (PyVal.dict es) = true) :
    ∃ res, handleNext dbOk1 dbOk2 k
        (PyVal.dict
          [("type", PyVal.str "next"),
           ("payload",
            PyVal.dict [("data", PyVal.dict [("detectionActivity", PyVal.dict es)])])])
      = Except.ok [Action.persist (withDevice es k) res,
          Action.broadcast k (withDevice es k)] := by
  obtain ⟨res, hs⟩ := save_ok_dict dbOk1 dbOk2 es k
  refine ⟨res, ?_⟩
  unfold handleNext
  have h1 : getItem
      (PyVal.dict
        [("type", PyVal.str "next"),
         ("payload",
          PyVal.dict [("data", PyVal.dict [("detectionActivity", PyVal.dict es)])])])
      "payload"
      = Except.ok (PyVal.dict [("data", PyVal.dict [("detectionActivity", PyVal.dict es)])]) := by
    rfl
  have h2 : getItem
      (PyVal.dict [("data", PyVal.dict [("detectionActivity", PyVal.dict es)])]) "data"
      = Except.ok (PyVal.dict [("detectionActivity", PyVal.dict es)]) := by rfl
  have h3 : pyGet (PyVal.dict [("detectionActivity", PyVal.dict es)]) "detectionActivity"
      = Except.ok (PyVal.dict es) := by rfl
  simp only [bind, Except.bind, h1, h2, h3, ht, if_true, hs]
  rfl

theorem streamLoop_next_cons (dbOk1 dbOk2 : Bool) (k : PyVal)
    (es : List (String × PyVal)) (ht : pyTruthy (PyVal.dict es) = true)
    (rest : List RecvItem) :
    ∃ res, streamLoop dbOk1 dbOk2 k (mkNextFrame (PyVal.dict es) :: rest)
      = (Action.persist (withDevice es k) res ::
          Action.broadcast k (withDevice es k) ::
            (streamLoop dbOk1 dbOk2 k rest).1,
         (streamLoop dbOk1 dbOk2 k rest).2) := by
  obtain ⟨res, hn⟩ := handleNext_next dbOk1 dbOk2 k es ht
  refine ⟨res, ?_⟩
  have hty : pyGet
      (PyVal.dict
        [("type", PyVal.str "next"),
         ("payload",
          PyVal.dict [("data", PyVal.dict [("detectionActivity", PyVal.dict es)])])])
      "type" = Except.ok (PyVal.str "next") := by rfl
  simp only [mkNextFrame, streamLoop, hty, hn]
  rfl

theorem persist_eq_broadcast (dbOk1 dbOk2 : Bool) (k : PyVal)
    (items : List RecvItem) :
    persistedEvents (streamLoop dbOk1 dbOk2 k items).1
      = broadcastEvents (streamLoop dbOk1 dbOk2 k items).1 := by
  induction items with
  | nil => rfl
  | cons it rest ih =>
    cases it with
    | closed => rfl
    | badJson => rfl
    | frame msg =>
      simp only [streamLoop]
      cases hty : pyGet msg "type" with
      | error e => rfl
      | ok t =>
        by_cases h1 : pyEqStr t "next"
        · simp only [h1, if_true]
          cases hn : handleNext dbOk1 dbOk2 k msg with
          | error e => rfl
          | ok acts =>
            rcases handleNext_shape dbOk1 dbOk2 k msg acts hn with h | ⟨r, m, h⟩ <;>
              subst h <;>
              simpa [persistedEvents, broadcastEvents] using ih
        · by_cases h2 : pyEqStr t "error"
          · simp [h1, h2, persistedEvents, broadcastEvents]
          · by_cases h3 : pyEqStr t "complete"
            · simp [h1, h2, h3, persistedEvents, broadcastEvents]
            · by_cases h4 : pyEqStr t "ping"
              · simp only [h1, h2, h3, h4, if_false, if_true, Bool.false_eq_true]
                simpa [persistedEvents, broadcastEvents] using ih
              · simp only [h1, h2, h3, h4, if_false, Bool.false_eq_true]
                exact ih

theorem connStatus_countP_streamLoop (dbOk1 dbOk2 : Bool) (k : PyVal)
    (items : List RecvItem) :
    (streamLoop dbOk1 dbOk2 k items).1.countP isConnStatus = 0 := by
  induction items with
  | nil => rfl
  | cons it rest ih =>
    cases it with
    | closed => rfl
    | badJson => rfl
    | frame msg =>
      simp only [streamLoop]
      cases hty : pyGet msg "type" with
      | error e => rfl
      | ok t =>
        by_cases h1 : pyEqStr t "next"
        · simp only [h1, if_true]
          cases hn : handleNext dbOk1 dbOk2 k msg with
          | error e => rfl
          | ok acts =>
            rcases handleNext_shape dbOk1 dbOk2 k msg acts hn with h | ⟨r, m, h⟩ <;>
              subst h <;>
              simpa [List.countP_append, isConnStatus] using ih
        · by_cases h2 : pyEqStr t "error"
          · simp [h1, h2]
          · by_cases h3 : pyEqStr t "complete"
            · simp [h1, h2, h3]
            · by_cases h4 : pyEqStr t "ping"
              · simp only [h1, h2, h3, h4, if_false, if_true, Bool.false_eq_true]
                simpa [List.countP_cons, isConnStatus] using ih
              · simp only [h1, h2, h3, h4, if_false, Bool.false_eq_true]
                exact ih

theorem assocGet_assocSet_ne (es : List (String × PyVal)) (key f : String)
    (v : PyVal) (hf : key ≠ f) :
    assocGet (assocSet es key v) f = assocGet es f := by
  induction es with
  | nil => simp [assocSet, assocGet, hf]
  | cons e es ih =>
    obtain ⟨k', v'⟩ := e
    by_cases h : k' = key
    · subst h
      simp [assocSet, assocGet, hf]
    · simp only [assocSet, assocGet, h, if_false]
      split <;> simp [ih]

theorem pyMem_active_sessionCleanup (k : PyVal) (s : ServerState) :
    pyMem k (sessionCleanup k s).active_connections = false := by
  unfold sessionCleanup
  cases h1 : pyMem k s.active_connections with
  | true =>
    simp only [h1, if_true]
    split <;> simp [pyMem_delKey]
  | false =>
    simp only [h1, Bool.false_eq_true, if_false]
    split <;> simp [h1]

/-- C1: the claim says `handle_leave_device` calls `stop_device_subscription`
only when the observer room for the key becomes empty; the code calls it
unconditionally.  Evaluating the code on the claim's own scenario — A and B
join "d1", then A alone leaves — shows the registry entry is removed (the
loop condition of the only worker goes false, tearing the session down)
although B is still in the room. -/
theorem claim_C1_first_leave_tears_down_session :
    handle_leave_device "A" [("device_id", PyVal.str "d1")]
      (handle_join_device "B" [("device_id", PyVal.str "d1")]
        (handle_join_device "A" [("device_id", PyVal.str "d1")] initState))
    = { rooms := [(PyVal.str "d1", ["B"])],
        active_connections := [],
        websocket_connections := [],
        spawned := [PyVal.str "d1"] } := by
  rfl

/-- C2: the claim says a second `startIfAbsent` for a present key spawns no
second session even under concurrent calls; `start_device_subscription` has
no lock between the `device_id in active_connections` test and the insertion
(thread creation and start sit between them), so in the interleaving in which
both threads pass the test before either inserts, two subscription worker
threads — two upstream sessions — are spawned for the one key, while the
dict still holds a single entry. -/
theorem claim_C2_interleaved_starts_spawn_two_sessions :
    raceRun (PyVal.str "d1") [false, true, false, true]
      { registry := [], spawned := [], pc1 := 0, pc2 := 0 }
    = { registry := [PyVal.str "d1"],
        spawned := [PyVal.str "d1", PyVal.str "d1"],
        pc1 := 2, pc2 := 2 } := by
  rfl

/-- C3 counterexample: a `next` frame with no `payload` key — malformed but
received in the Streaming state in isolation — is not skipped: the
`msg["payload"]` subscript raises, the catch-all handler breaks the loop, and
the session tears down, contradicting the claim that teardown is triggered
only by `error`, `complete`, transport close, or cancellation. -/
theorem claim_C3_cex_malformed_next_is_fatal :
    streamLoop true true (PyVal.str "d1")
      [RecvItem.frame (PyVal.dict [("type", PyVal.str "next")])]
    = ([], some ExitReason.internalError) := by
  rfl

/-- C3 amended: a frame of unrecognized type received in the Streaming state
is skipped and the read loop continues; but a frame that is not valid JSON,
and a `next` frame whose payload lacks the expected nested
`payload`/`data` fields, abort the loop through the catch-all exception
handler and tear the session down. -/
theorem claim_C3_amended_unrecognized_skipped_malformed_fatal
    (dbOk1 dbOk2 : Bool) (k msg t : PyVal) (rest : List RecvItem)
    (hty : pyGet msg "type" = Except.ok t)
    (h1 : pyEqStr t "next" = false) (h2 : pyEqStr t "error" = false)
    (h3 : pyEqStr t "complete" = false) (h4 : pyEqStr t "ping" = false) :
    streamLoop dbOk1 dbOk2 k (RecvItem.frame msg :: rest)
      = streamLoop dbOk1 dbOk2 k rest ∧
    streamLoop dbOk1 dbOk2 k (RecvItem.badJson :: rest)
      = ([], some ExitReason.internalError) ∧
    streamLoop dbOk1 dbOk2 k
        (RecvItem.frame (PyVal.dict [("type", PyVal.str "next")]) :: rest)
      = ([], some ExitReason.internalError) := by
  refine ⟨?_, rfl, rfl⟩
  simp [streamLoop, hty, h1, h2, h3, h4]

/-- Witness for the amended C3 at a concrete unrecognized frame type. -/
theorem claim_C3_witness :
    streamLoop true true (PyVal.str "d1")
      [RecvItem.frame (PyVal.dict [("type", PyVal.str "pong")]),
       RecvItem.frame (PyVal.dict [("type", PyVal.str "complete")])]
      = streamLoop true true (PyVal.str "d1")
          [RecvItem.frame (PyVal.dict [("type", PyVal.str "complete")])] ∧
    streamLoop true true (PyVal.str "d1")
        (RecvItem.badJson ::
          [RecvItem.frame (PyVal.dict [("type", PyVal.str "complete")])])
      = ([], some ExitReason.internalError) ∧
    streamLoop true true (PyVal.str "d1")
        (RecvItem.frame (PyVal.dict [("type", PyVal.str "next")]) ::
          [RecvItem.frame (PyVal.dict [("type", PyVal.str "complete")])])
      = ([], some ExitReason.internalError) :=
  claim_C3_amended_unrecognized_skipped_malformed_fatal true true
    (PyVal.str "d1") (PyVal.dict [("type", PyVal.str "pong")])
    (PyVal.str "pong")
    [RecvItem.frame (PyVal.dict [("type", PyVal.str "complete")])]
    rfl rfl rfl rfl rfl

/-- C4 counterexample: an event decoded with `device_id` field "orig" is
persisted and broadcast with that field overwritten to the session's key:
`save_detection_to_db` mutates the decoded event before the insert, and the
mutated object is what is fanned out, contradicting the claim that neither
path modifies any field. -/
theorem claim_C4_cex_event_mutated_before_fanout :
    handleNext true true (PyVal.str "d1")
      (PyVal.dict
        [("type", PyVal.str "next"),
         ("payload",
          PyVal.dict
            [("data",
              PyVal.dict
                [("detectionActivity",
                  PyVal.dict
                    [("device_id", PyVal.str "orig"),
                     ("timestamp", PyVal.str "x")])])])])
      = Except.ok
          [Action.persist
            (PyVal.dict
              [("device_id", PyVal.str "d1"), ("timestamp", PyVal.str "x")])
            (PyVal.bool true),
           Action.broadcast (PyVal.str "d1")
            (PyVal.dict
              [("device_id", PyVal.str "d1"), ("timestamp", PyVal.str "x")])] ∧
    PyVal.dict [("device_id", PyVal.str "d1"), ("timestamp", PyVal.str "x")]
      ≠ PyVal.dict
          [("device_id", PyVal.str "orig"), ("timestamp", PyVal.str "x")] := by
  refine ⟨rfl, ?_⟩
  intro h
  simp only [PyVal.dict.injEq, List.cons.injEq, Prod.mk.injEq,
    PyVal.str.injEq] at h
  exact absurd h.1.2 (by decide)

/-- C4 amended: the persistence path mutates exactly one field of the decoded
event before fan-out: `save_detection_to_db` assigns the session's device key
to `device_id` in place (so the persisted and broadcast object carries that
assignment), and every other field is left unchanged. -/
theorem claim_C4_amended_only_device_id_mutated (dbOk1 dbOk2 : Bool)
    (es : List (String × PyVal)) (k : PyVal) :
    (∃ res, save_detection_to_db dbOk1 dbOk2 (PyVal.dict es) k
        = Except.ok (res, withDevice es k)) ∧
    ∀ f : String, f ≠ "device_id" →
      assocGet (assocSet es "device_id" k) f = assocGet es f := by
  refine ⟨save_ok_dict dbOk1 dbOk2 es k, ?_⟩
  intro f hf
  exact assocGet_assocSet_ne es "device_id" f k (fun h => hf h.symm)

/-- Witness for the amended C4 at a concrete event without a device_id
field. -/
theorem claim_C4_witness :
    (∃ res, save_detection_to_db true true
        (PyVal.dict [("timestamp", PyVal.str "x")]) (PyVal.str "d1")
        = Except.ok
            (res, withDevice [("timestamp", PyVal.str "x")] (PyVal.str "d1"))) ∧
    assocGet (assocSet [("timestamp", PyVal.str "x")] "device_id"
        (PyVal.str "d1")) "timestamp"
      = assocGet [("timestamp", PyVal.str "x")] "timestamp" := by
  obtain ⟨h1, h2⟩ := claim_C4_amended_only_device_id_mutated true true
    [("timestamp", PyVal.str "x")] (PyVal.str "d1")
  exact ⟨h1, h2 "timestamp" (by decide)⟩

/-- C5: a `next` frame whose detection payload is present (a truthy dict)
produces exactly one persistence call (`save_detection_to_db`) followed by
exactly one broadcast of the same event, after which the loop continues with
the remaining input; this holds for every value of the two persistence
oracles, so a sink returning False or failing internally never prevents the
broadcast and never propagates to the loop. -/
theorem claim_C5_persist_once_then_broadcast (dbOk1 dbOk2 : Bool) (k : PyVal)
    (es : List (String × PyVal)) (rest : List RecvItem)
    (ht : pyTruthy (PyVal.dict es) = true) :
    ∃ res, streamLoop dbOk1 dbOk2 k (mkNextFrame (PyVal.dict es) :: rest)
      = (Action.persist (withDevice es k) res ::
          Action.broadcast k (withDevice es k) ::
            (streamLoop dbOk1 dbOk2 k rest).1,
         (streamLoop dbOk1 dbOk2 k rest).2) :=
  streamLoop_next_cons dbOk1 dbOk2 k es ht rest

/-- Witness for C5 with both sqlite oracles failing: the broadcast still
follows the (failed) persistence call. -/
theorem claim_C5_witness :
    ∃ res, streamLoop false false (PyVal.str "d1")
        (mkNextFrame (PyVal.dict [("timestamp", PyVal.str "t")]) :: [])
      = (Action.persist
            (withDevice [("timestamp", PyVal.str "t")] (PyVal.str "d1")) res ::
          Action.broadcast (PyVal.str "d1")
            (withDevice [("timestamp", PyVal.str "t")] (PyVal.str "d1")) ::
            (streamLoop false false (PyVal.str "d1") []).1,
         (streamLoop false false (PyVal.str "d1") []).2) :=
  claim_C5_persist_once_then_broadcast false false (PyVal.str "d1")
    [("timestamp", PyVal.str "t")] [] (by decide)

/-- C6: over any received input, the sequence of events handed to
`save_detection_to_db` equals the sequence of events broadcast to the key's
room; and for a sequence of well-formed `next` frames carrying events
e1..en the two output sequences are exactly e1..en (with the device_id
assignment) in the received order. -/
theorem claim_C6_order_preserved (dbOk1 dbOk2 : Bool) (k : PyVal)
    (items : List RecvItem) (events : List (List (String × PyVal)))
    (hev : ∀ es ∈ events, pyTruthy (PyVal.dict es) = true) :
    persistedEvents (streamLoop dbOk1 dbOk2 k items).1
      = broadcastEvents (streamLoop dbOk1 dbOk2 k items).1 ∧
    persistedEvents
        (streamLoop dbOk1 dbOk2 k
          (events.map (fun es => mkNextFrame (PyVal.dict es)))).1
      = events.map (fun es => withDevice es k) ∧
    broadcastEvents
        (streamLoop dbOk1 dbOk2 k
          (events.map (fun es => mkNextFrame (PyVal.dict es)))).1
      = events.map (fun es => withDevice es k) := by
  have key : ∀ evs : List (List (String × PyVal)),
      (∀ es ∈ evs, pyTruthy (PyVal.dict es) = true) →
      persistedEvents
          (streamLoop dbOk1 dbOk2 k
            (evs.map (fun es => mkNextFrame (PyVal.dict es)))).1
        = evs.map (fun es => withDevice es k) := by
    intro evs hevs
    induction evs with
    | nil => rfl
    | cons es evs ih =>
      obtain ⟨res, h⟩ := streamLoop_next_cons dbOk1 dbOk2 k es
        (hevs es (List.mem_cons_self es evs))
        (evs.map (fun es => mkNextFrame (PyVal.dict es)))
      simp only [List.map_cons, h, persistedEvents, List.filterMap_cons]
      simp only [persistedEvents] at ih
      rw [ih (fun e he => hevs e (List.mem_cons_of_mem es he))]
  refine ⟨persist_eq_broadcast dbOk1 dbOk2 k items, key events hev, ?_⟩
  rw [← persist_eq_broadcast dbOk1 dbOk2 k
    (events.map (fun es => mkNextFrame (PyVal.dict es)))]
  exact key events hev

/-- Witness for C6 at a two-event stream: both output orders are e1, e2. -/
theorem claim_C6_witness :
    persistedEvents (streamLoop true true (PyVal.str "d1") []).1
      = broadcastEvents (streamLoop true true (PyVal.str "d1") []).1 ∧
    persistedEvents
        (streamLoop true true (PyVal.str "d1")
          (([[("a", PyVal.int 1)], [("b", PyVal.int 2)]].map
            (fun es => mkNextFrame (PyVal.dict es))))).1
      = [[("a", PyVal.int 1)], [("b", PyVal.int 2)]].map
          (fun es => withDevice es (PyVal.str "d1")) ∧
    broadcastEvents
        (streamLoop true true (PyVal.str "d1")
          (([[("a", PyVal.int 1)], [("b", PyVal.int 2)]].map
            (fun es => mkNextFrame (PyVal.dict es))))).1
      = [[("a", PyVal.int 1)], [("b", PyVal.int 2)]].map
          (fun es => withDevice es (PyVal.str "d1")) :=
  claim_C6_order_preserved true true (PyVal.str "d1") []
    [[("a", PyVal.int 1)], [("b", PyVal.int 2)]] (by decide)

/-- C7: in every session run that reaches the Streaming state (the ack-wait
loop succeeds), the emitted trace is exactly connection_init, subscribe, one
`connection_status` emission, and then the streaming loop's actions: the
status notification is emitted exactly once, after the subscribe frame and
before any event broadcast, and the streaming loop never re-emits it. -/
theorem claim_C7_connection_status_once (dbOk1 dbOk2 : Bool) (k : PyVal)
    (items rest : List RecvItem) (st : ServerState)
    (hack : awaitAck items = AckResult.acked rest) :
    (sessionRun dbOk1 dbOk2 k items st).1
      = Action.sendInit :: Action.sendSubscribe :: Action.connStatus k ::
          (streamLoop dbOk1 dbOk2 k rest).1 ∧
    (sessionRun dbOk1 dbOk2 k items st).1.countP isConnStatus = 1 ∧
    (streamLoop dbOk1 dbOk2 k rest).1.countP isConnStatus = 0 := by
  have h0 := connStatus_countP_streamLoop dbOk1 dbOk2 k rest
  have h1 : (sessionRun dbOk1 dbOk2 k items st).1
      = Action.sendInit :: Action.sendSubscribe :: Action.connStatus k ::
          (streamLoop dbOk1 dbOk2 k rest).1 := by
    unfold sessionRun
    rw [hack]
    cases hx : (streamLoop dbOk1 dbOk2 k rest).2 <;> simp [hx]
  refine ⟨h1, ?_, h0⟩
  rw [h1]
  simp [List.countP_cons, isConnStatus, h0]

/-- Witness for C7: a run whose handshake sees the ack at once and whose
stream ends with a `complete` frame. -/
theorem claim_C7_witness :
    (sessionRun true true (PyVal.str "d1")
        [RecvItem.frame (PyVal.dict [("type", PyVal.str "connection_ack")]),
         RecvItem.frame (PyVal.dict [("type", PyVal.str "complete")])]
        initState).1
      = Action.sendInit :: Action.sendSubscribe ::
          Action.connStatus (PyVal.str "d1") ::
          (streamLoop true true (PyVal.str "d1")
            [RecvItem.frame (PyVal.dict [("type", PyVal.str "complete")])]).1 ∧
    (sessionRun true true (PyVal.str "d1")
        [RecvItem.frame (PyVal.dict [("type", PyVal.str "connection_ack")]),
         RecvItem.frame (PyVal.dict [("type", PyVal.str "complete")])]
        initState).1.countP isConnStatus = 1 ∧
    (streamLoop true true (PyVal.str "d1")
        [RecvItem.frame (PyVal.dict [("type", PyVal.str "complete")])]).1.countP
        isConnStatus = 0 :=
  claim_C7_connection_status_once true true (PyVal.str "d1")
    [RecvItem.frame (PyVal.dict [("type", PyVal.str "connection_ack")]),
     RecvItem.frame (PyVal.dict [("type", PyVal.str "complete")])]
    [RecvItem.frame (PyVal.dict [("type", PyVal.str "complete")])]
    initState rfl

/-- C8: every session run that terminates on its own (an `error` frame, a
`complete` frame, a transport close, a handshake failure or an internal
exception — any exit with a reason) leaves a final state in which its key is
no longer in `active_connections`, and a subsequent
`start_device_subscription` for the same key is not blocked: it returns true
and spawns a fresh worker, inserting a fresh registry entry. -/
theorem claim_C8_self_cleanup_unblocks_restart (dbOk1 dbOk2 : Bool)
    (k : PyVal) (items : List RecvItem) (st : ServerState) (ex : ExitReason)
    (hex : (sessionRun dbOk1 dbOk2 k items st).2.1 = some ex) :
    pyMem k (sessionRun dbOk1 dbOk2 k items st).2.2.active_connections
      = false ∧
    start_device_subscription k (sessionRun dbOk1 dbOk2 k items st).2.2
      = (true,
         { (sessionRun dbOk1 dbOk2 k items st).2.2 with
           spawned :=
             (sessionRun dbOk1 dbOk2 k items st).2.2.spawned ++ [k],
           active_connections :=
             (sessionRun dbOk1 dbOk2 k items st).2.2.active_connections
               ++ [k] }) := by
  have hclean : ∃ s1, (sessionRun dbOk1 dbOk2 k items st).2.2
      = sessionCleanup k s1 := by
    cases hA : awaitAck items with
    | acked rest =>
      cases hx : (streamLoop dbOk1 dbOk2 k rest).2 with
      | none => simp [sessionRun, hA, hx] at hex
      | some e =>
        simp only [sessionRun, hA, hx]
        exact ⟨_, rfl⟩
    | failed =>
      simp only [sessionRun, hA]
      exact ⟨_, rfl⟩
    | blocked => simp [sessionRun, hA] at hex
  obtain ⟨s1, hs1⟩ := hclean
  have hmem : pyMem k
      (sessionRun dbOk1 dbOk2 k items st).2.2.active_connections = false := by
    rw [hs1]
    exact pyMem_active_sessionCleanup k s1
  refine ⟨hmem, ?_⟩
  unfold start_device_subscription
  simp only [hmem, Bool.false_eq_true, if_false]

/-- Witness for C8: a session killed by an upstream `error` frame; the
subsequent start succeeds and spawns. -/
theorem claim_C8_witness :
    pyMem (PyVal.str "d1")
        (sessionRun true true (PyVal.str "d1")
          [RecvItem.frame (PyVal.dict [("type", PyVal.str "connection_ack")]),
           RecvItem.frame (PyVal.dict [("type", PyVal.str "error")])]
          initState).2.2.active_connections = false ∧
    start_device_subscription (PyVal.str "d1")
        (sessionRun true true (PyVal.str "d1")
          [RecvItem.frame (PyVal.dict [("type", PyVal.str "connection_ack")]),
           RecvItem.frame (PyVal.dict [("type", PyVal.str "error")])]
          initState).2.2
      = (true,
         { (sessionRun true true (PyVal.str "d1")
              [RecvItem.frame (PyVal.dict [("type", PyVal.str "connection_ack")]),
               RecvItem.frame (PyVal.dict [("type", PyVal.str "error")])]
              initState).2.2 with
           spawned :=
             (sessionRun true true (PyVal.str "d1")
                [RecvItem.frame (PyVal.dict [("type", PyVal.str "connection_ack")]),
                 RecvItem.frame (PyVal.dict [("type", PyVal.str "error")])]
                initState).2.2.spawned ++ [PyVal.str "d1"],
           active_connections :=
             (sessionRun true true (PyVal.str "d1")
                [RecvItem.frame (PyVal.dict [("type", PyVal.str "connection_ack")]),
                 RecvItem.frame (PyVal.dict [("type", PyVal.str "error")])]
                initState).2.2.active_connections ++ [PyVal.str "d1"] }) :=
  claim_C8_self_cleanup_unblocks_restart true true (PyVal.str "d1")
    [RecvItem.frame (PyVal.dict [("type", PyVal.str "connection_ack")]),
     RecvItem.frame (PyVal.dict [("type", PyVal.str "error")])]
    initState ExitReason.errorFrame rfl

/-- C9: for every input value — dicts with missing, partly populated or
explicitly null nested fields included — `insert_detection` and
`insert_track` raise no exception to their caller and return a boolean: the
whole body of each runs inside try/except, and the model shows the except
clause turns every raise into the return value False. -/
theorem claim_C9_inserts_return_bool_never_raise :
    ∀ (dbOk1 dbOk2 : Bool) (d t k : PyVal),
      (∃ b : Bool, insert_detection dbOk1 d = Except.ok (PyVal.bool b)) ∧
      (∃ b : Bool, insert_track dbOk2 t k = Except.ok (PyVal.bool b)) :=
  fun dbOk1 dbOk2 d t k =>
    ⟨insert_detection_total dbOk1 d, insert_track_total dbOk2 t k⟩

/-- C10: a `join_device` or `leave_device` payload whose `device_id` lookup
is falsy (key absent, empty string, None, and so on) makes the handler a
total no-op: nothing raises (`data.get` on a dict payload cannot), no room is
joined or left, and the whole server state — registry and websocket maps
included — is unchanged. -/
theorem claim_C10_falsy_device_id_noop (sid : String)
    (data : List (String × PyVal)) (st : ServerState)
    (h : pyTruthy ((assocGet data "device_id").getD PyVal.none) = false) :
    handle_join_device sid data st = st ∧
    handle_leave_device sid data st = st := by
  constructor <;> simp [handle_join_device, handle_leave_device, h]

/-- Witness for C10: a payload carrying the falsy device id "". -/
theorem claim_C10_witness :
    handle_join_device "A" [("device_id", PyVal.str "")] initState
      = initState ∧
    handle_leave_device "A" [("device_id", PyVal.str "")] initState
      = initState :=
  claim_C10_falsy_device_id_noop "A" [("device_id", PyVal.str "")] initState
    rfl

end WorldsApp
